import Mathlib

/-!
Shallow embedding of aten/src/ATen/native/cuda/CusparseLtKernels.cpp.

The file binds the cuSPARSELt library: a struct CusparseLt holds the
configuration (compressed tensor, scalars, algorithm id, vendor enum
choices) and three member functions (compress, cusparselt_mm,
cusparselt_addmm, the latter two through cusparselt_helper) issue a
fixed sequence of vendor API calls.  We embed the struct as a state
record, each member function as a pure function returning the new state
together with the list of vendor calls it issues (with the arguments the
source passes), and the CHECK_CUDA / CHECK_CUSPARSE macros as a runner
that consults a status oracle and aborts on the first failing call.
-/

namespace CusparseLtKernels

/-- Vendor data type enum values used by the source (cudaDataType). -/
inductive CudaDataType
  | CUDA_R_16F
  | CUDA_R_8I
  | CUDA_R_B16F
  deriving DecidableEq, Repr

/-- Vendor compute type enum values used by the source. -/
inductive CusparseComputeType
  | COMPUTE_16F
  | COMPUTE_32I
  deriving DecidableEq, Repr

/-- Vendor storage order enum. -/
inductive CusparseOrder
  | ROW
  | COL
  deriving DecidableEq, Repr

/-- Vendor transpose flag enum. -/
inductive CusparseOperation
  | NON_TRANSPOSE
  | TRANSPOSE
  deriving DecidableEq, Repr

/-- Vendor structured sparsity enum; the source only uses 50 percent. -/
inductive CusparseSparsity
  | FIFTY_PERCENT
  deriving DecidableEq, Repr

/-- Scalar types of the tensors that reach this binding. -/
inductive DType
  | int8
  | bfloat16
  | float16
  | float32
  deriving DecidableEq, Repr

/-- A two dimensional ATen tensor as this binding sees it: sizes,
dtype, device index, contiguity flag and the identity of its device
data pointer. -/
structure Tensor where
  dim0 : Int
  dim1 : Int
  dtype : DType
  device : Nat
  contiguous : Bool
  ptr : Nat
  deriving DecidableEq, Repr

/-- One vendor API call together with the arguments the source passes.
Every constructor corresponds to one call site of the cpp file; the
prune constructors exist in the vendor API but are commented out in the
source, so the embedding never emits them. -/
inductive ApiCall
  | cudaDeviceGetAttribute (attr : String)
  | cusparseLtInit
  | cusparseLtStructuredDescriptorInit (rows cols ld : Int) (alignment : Nat)
      (valueType : CudaDataType) (order : CusparseOrder) (sparsity : CusparseSparsity)
  | cusparseLtSpMMAPrune2
  | cusparseLtSpMMAPruneCheck2
  | cusparseLtSpMMACompressedSize2
  | cudaMalloc (buffer : String)
  | cusparseLtSpMMACompress2 (isSparseA : Bool) (op : CusparseOperation)
      (src : Option Nat) (dst : Option Nat)
  | cusparseLtDenseDescriptorInit (which : String) (rows cols ld : Int) (alignment : Nat)
      (valueType : CudaDataType) (order : CusparseOrder)
  | cusparseLtMatmulDescriptorInit (opA opB : CusparseOperation)
      (computeType : CusparseComputeType)
  | cusparseLtMatmulDescSetBiasPointer (dBias : Option Nat)
  | cusparseLtMatmulDescSetBiasStride (biasStride : Int)
  | cusparseLtMatmulAlgSelectionInit (alg : String)
  | cusparseLtMatmulPlanInit
  | cusparseLtMatmulGetWorkspace
  | cusparseLtMatmulSearch (alpha : ℚ) (dA : Option Nat) (dB : Option Nat) (beta : ℚ)
      (dC : Option Nat) (dD : Option Nat)
  | cusparseLtMatmulAlgGetAttribute (attr : String)
  | cusparseLtMatmulAlgSetAttribute (attr : String) (value : Int)
  | cusparseLtMatmul (alpha : ℚ) (dA : Option Nat) (dB : Option Nat) (beta : ℚ)
      (dC : Option Nat) (dD : Option Nat)
  | cusparseLtMatDescriptorDestroy (which : String)
  | cusparseLtMatmulPlanDestroy
  deriving DecidableEq, Repr

/-- The constexpr static member order of the struct: CUSPARSE_ORDER_ROW. -/
def order : CusparseOrder := CusparseOrder.ROW

/-- The CusparseLt struct of the source.  Handles (cusparseLtHandle_t,
descriptors, plan, alg selection) are vendor opaque; we track only
whether cusparseLtInit has been called on the handle.  num_A_rows and
opA have no initializer in the source, so the embedding carries whatever
value construction was given for them.  nextPtr models the device
allocator: calls to new_empty hand out this pointer and bump it. -/
structure CusparseLt where
  sparse_compressed : Tensor
  alignment : Nat := 16
  alpha : ℚ := 1
  beta : ℚ := 0
  num_streams : Nat := 0
  alg_id : Int := 7777
  num_A_rows : Int
  opA : CusparseOperation
  type : CudaDataType := CudaDataType.CUDA_R_16F
  compute_type : CusparseComputeType := CusparseComputeType.COMPUTE_16F
  handleInitialized : Bool := false
  nextPtr : Nat
  deriving DecidableEq, Repr

/-- The tensor members declared by the struct CusparseLt in the source:
the only at::Tensor member is sparse_compressed. -/
def declaredTensorMembers : List String := ["sparse_compressed"]

/-- Name resolution for a member access tensorName.data_ptr() inside a
member function of CusparseLt: only the declared tensor member
resolves; any other identifier is undeclared and yields none. -/
def resolveTensorMember (s : CusparseLt) (name : String) : Option Tensor :=
  if name = "sparse_compressed" then some s.sparse_compressed else none

/-- The device pointer the matmul and search call sites pass as the
compressed sparse operand: the source writes weight_compressed.data_ptr()
at lines 291 and 317. -/
def sparseOperandArg (s : CusparseLt) : Option Nat :=
  (resolveTensorMember s "weight_compressed").map Tensor.ptr

/-- Compute capability test of the constructor: only 8.0, 8.6 and 8.9
pass (lines 79 to 81). -/
def supportedCC (major minor : Int) : Bool :=
  (major == 8 && minor == 0) || (major == 8 && minor == 6) ||
    (major == 8 && minor == 9)

/-- Result of running the constructor: the constructed state, the
vendor calls it issued, and whether the unsupported-GPU message was
printed. -/
structure CtorResult where
  state : CusparseLt
  calls : List ApiCall
  printedUnsupported : Bool
  deriving DecidableEq, Repr

/-- The constructor CusparseLt::CusparseLt (lines 70 to 103).  It binds
sparse_compressed, queries the compute capability, and on an
unsupported GPU prints a message and returns early, leaving the handle
uninitialized and the type defaults in place.  On a supported GPU it
initializes the handle and translates the dtype of sparse_compressed
into the vendor type pair.  junkNumARows and junkOpA stand for the
indeterminate values of the uninitialized members num_A_rows and opA;
alloc0 is the state of the device allocator. -/
def CusparseLt.construct (sc : Tensor) (major minor : Int)
    (junkNumARows : Int) (junkOpA : CusparseOperation) (alloc0 : Nat) : CtorResult :=
  let base : CusparseLt :=
    { sparse_compressed := sc, num_A_rows := junkNumARows, opA := junkOpA,
      nextPtr := alloc0 }
  let attrCalls : List ApiCall :=
    [ApiCall.cudaDeviceGetAttribute "ComputeCapabilityMajor",
     ApiCall.cudaDeviceGetAttribute "ComputeCapabilityMinor"]
  if supportedCC major minor then
    let st :=
      if sc.dtype = DType.int8 then
        { base with handleInitialized := true,
                    type := CudaDataType.CUDA_R_8I,
                    compute_type := CusparseComputeType.COMPUTE_32I }
      else if sc.dtype = DType.bfloat16 then
        { base with handleInitialized := true,
                    type := CudaDataType.CUDA_R_B16F,
                    compute_type := CusparseComputeType.COMPUTE_32I }
      else
        { base with handleInitialized := true }
    { state := st, calls := attrCalls ++ [ApiCall.cusparseLtInit],
      printedUnsupported := false }
  else
    { state := base, calls := attrCalls, printedUnsupported := true }

/-- CusparseLt::compress (lines 106 to 194).  Reads the sparse input
sizes, sets opA and num_A_rows from the transpose flag, initializes the
structured descriptor, queries the compressed sizes, allocates the
temporary buffer and calls the vendor compress entry point writing into
sparse_compressed.  The prune and prune-check calls of the vendor API
are commented out in the source and are not emitted. -/
def CusparseLt.compress (s : CusparseLt) (sparse_input : Tensor)
    (is_sparse_input_transposed : Bool) : CusparseLt × List ApiCall :=
  let m := sparse_input.dim0
  let k := sparse_input.dim1
  let is_rowmajor := order = CusparseOrder.ROW
  let opA := if is_sparse_input_transposed then CusparseOperation.TRANSPOSE
             else CusparseOperation.NON_TRANSPOSE
  let num_A_rows : Int := if is_sparse_input_transposed then k else m
  let num_A_cols : Int := if is_sparse_input_transposed then m else k
  let lda : Int := if is_rowmajor then num_A_cols else num_A_rows
  ({ s with opA := opA, num_A_rows := num_A_rows },
   [ApiCall.cusparseLtStructuredDescriptorInit num_A_rows num_A_cols lda
      s.alignment s.type order CusparseSparsity.FIFTY_PERCENT,
    ApiCall.cusparseLtSpMMACompressedSize2,
    ApiCall.cudaMalloc "compressedBuffer",
    ApiCall.cusparseLtSpMMACompress2 true opA (some sparse_input.ptr)
      (some s.sparse_compressed.ptr)])

/-- CusparseLt::cusparselt_helper (lines 206 to 332).  Allocates the
result with input.new_empty of shape num_A_rows by n, translates the
dense layout from contiguity, initializes the dense and result
descriptors, the matmul descriptor, bias attributes, algorithm
selection and plan, then either runs the algorithm search (when alg_id
is the 7777 sentinel) and caches the selected config id, or sets the
cached id and runs the matmul.  searchResultAlgId is the config id the
vendor search reports through cusparseLtMatmulAlgGetAttribute. -/
def CusparseLt.cusparselt_helper (s : CusparseLt) (input : Tensor)
    (dBias : Option Nat) (biasStride : Int) (searchResultAlgId : Int) :
    CusparseLt × Tensor × List ApiCall :=
  let k := input.dim0
  let n := input.dim1
  let res : Tensor :=
    { dim0 := s.num_A_rows, dim1 := n, dtype := input.dtype,
      device := input.device, contiguous := true, ptr := s.nextPtr }
  let is_dense_input_transposed := !input.contiguous
  let opB := if is_dense_input_transposed then CusparseOperation.TRANSPOSE
             else CusparseOperation.NON_TRANSPOSE
  let num_B_rows : Int := if is_dense_input_transposed then n else k
  let num_B_cols : Int := if is_dense_input_transposed then k else n
  let num_C_rows : Int := s.num_A_rows
  let num_C_cols : Int := n
  let is_rowmajor := order = CusparseOrder.ROW
  let ldb : Int := if is_rowmajor then num_B_cols else num_B_rows
  let ldc : Int := if is_rowmajor then num_C_cols else num_C_rows
  let prefixCalls : List ApiCall :=
    [ApiCall.cusparseLtDenseDescriptorInit "dense_input_descriptor"
       num_B_rows num_B_cols ldb s.alignment s.type order,
     ApiCall.cusparseLtDenseDescriptorInit "res_descriptor"
       num_C_rows num_C_cols ldc s.alignment s.type CusparseOrder.ROW,
     ApiCall.cusparseLtMatmulDescriptorInit s.opA opB s.compute_type,
     ApiCall.cusparseLtMatmulDescSetBiasPointer dBias,
     ApiCall.cusparseLtMatmulDescSetBiasStride biasStride,
     ApiCall.cusparseLtMatmulAlgSelectionInit "ALG_DEFAULT",
     ApiCall.cusparseLtMatmulPlanInit,
     ApiCall.cusparseLtMatmulGetWorkspace,
     ApiCall.cudaMalloc "d_workspace"]
  let branchCalls : List ApiCall :=
    if s.alg_id = 7777 then
      [ApiCall.cusparseLtMatmulSearch s.alpha (sparseOperandArg s)
         (some input.ptr) s.beta (some res.ptr) (some res.ptr),
       ApiCall.cusparseLtMatmulAlgGetAttribute "ALG_CONFIG_ID"]
    else
      [ApiCall.cusparseLtMatmulAlgSetAttribute "ALG_CONFIG_ID" s.alg_id,
       ApiCall.cusparseLtMatmul s.alpha (sparseOperandArg s)
         (some input.ptr) s.beta (some res.ptr) (some res.ptr)]
  let suffixCalls : List ApiCall :=
    [ApiCall.cusparseLtMatDescriptorDestroy "dense_input_descriptor",
     ApiCall.cusparseLtMatDescriptorDestroy "res_descriptor",
     ApiCall.cusparseLtMatmulPlanDestroy]
  let s' : CusparseLt :=
    { s with alg_id := if s.alg_id = 7777 then searchResultAlgId else s.alg_id,
             nextPtr := s.nextPtr + 1 }
  (s', res, prefixCalls ++ branchCalls ++ suffixCalls)

/-- CusparseLt::cusparselt_mm (lines 196 to 198): helper with a null
bias pointer and zero bias stride. -/
def CusparseLt.cusparselt_mm (s : CusparseLt) (input : Tensor)
    (searchResultAlgId : Int) : CusparseLt × Tensor × List ApiCall :=
  CusparseLt.cusparselt_helper s input none 0 searchResultAlgId

/-- CusparseLt::cusparselt_addmm (lines 200 to 204): helper with the
bias data pointer and zero bias stride. -/
def CusparseLt.cusparselt_addmm (s : CusparseLt) (input : Tensor) (bias : Tensor)
    (searchResultAlgId : Int) : CusparseLt × Tensor × List ApiCall :=
  CusparseLt.cusparselt_helper s input (some bias.ptr) 0 searchResultAlgId

/-- One invocation of a bound member function, with its tensor
arguments and, for the multiply paths, the config id a vendor search
would report. -/
inductive Op
  | compressOp (sparse_input : Tensor) (transposed : Bool)
  | mmOp (input : Tensor) (searchResultAlgId : Int)
  | addmmOp (input : Tensor) (bias : Tensor) (searchResultAlgId : Int)
  deriving DecidableEq, Repr

/-- Apply one bound member function to the state, returning the new
state and the vendor calls issued. -/
def applyOp (s : CusparseLt) : Op → CusparseLt × List ApiCall
  | Op.compressOp t tr => CusparseLt.compress s t tr
  | Op.mmOp t sel =>
      let r := CusparseLt.cusparselt_mm s t sel
      (r.1, r.2.2)
  | Op.addmmOp t b sel =>
      let r := CusparseLt.cusparselt_addmm s t b sel
      (r.1, r.2.2)

/-- Run a sequence of bound member functions, collecting the vendor
calls of each invocation. -/
def runOps (s : CusparseLt) : List Op → CusparseLt × List (List ApiCall)
  | [] => (s, [])
  | op :: ops =>
      let r := applyOp s op
      let rest := runOps r.1 ops
      (rest.1, r.2 :: rest.2)

/-- The CHECK_CUDA and CHECK_CUSPARSE macros: each vendor call is
issued, its status consulted (the oracle gives the status of the call
at each global call index, true meaning success), and on the first
non-success status TORCH_CHECK raises, so no later call of the
operation is issued.  Returns the calls actually issued and whether the
operation completed. -/
def runChecked (oracle : Nat → Bool) : List ApiCall → Nat → List ApiCall × Bool
  | [], _ => ([], true)
  | c :: cs, i =>
      if oracle i then
        let r := runChecked oracle cs (i + 1)
        (c :: r.1, r.2)
      else ([c], false)

/-- The call lists of the three operation bodies that wrap every vendor
call in a CHECK macro: the constructor, compress and the helper behind
both multiply entry points. -/
def opCallLists (sc : Tensor) (major minor : Int) (junkNumARows : Int)
    (junkOpA : CusparseOperation) (alloc0 : Nat) (s : CusparseLt)
    (sparse_input : Tensor) (transposed : Bool) (input : Tensor)
    (dBias : Option Nat) (biasStride : Int) (sel : Int) : List (List ApiCall) :=
  [(CusparseLt.construct sc major minor junkNumARows junkOpA alloc0).calls,
   (CusparseLt.compress s sparse_input transposed).2,
   (CusparseLt.cusparselt_helper s input dBias biasStride sel).2.2]

/-- Recognizer for the vendor prune entry points. -/
def isPruneCall : ApiCall → Bool
  | ApiCall.cusparseLtSpMMAPrune2 => true
  | ApiCall.cusparseLtSpMMAPruneCheck2 => true
  | _ => false

/-- Recognizer for the vendor algorithm search entry point. -/
def isSearchCall : ApiCall → Bool
  | ApiCall.cusparseLtMatmulSearch _ _ _ _ _ _ => true
  | _ => false

/-- The alpha and beta scalars a multiplication call carries, when the
call is cusparseLtMatmul or cusparseLtMatmulSearch. -/
def multiplyScalars : ApiCall → Option (ℚ × ℚ)
  | ApiCall.cusparseLtMatmulSearch a _ _ b _ _ => some (a, b)
  | ApiCall.cusparseLtMatmul a _ _ b _ _ => some (a, b)
  | _ => none

/-- The sparse operand pointer argument of a multiplication or search
call. -/
def multiplySparseArg : ApiCall → Option (Option Nat)
  | ApiCall.cusparseLtMatmulSearch _ dA _ _ _ _ => some dA
  | ApiCall.cusparseLtMatmul _ dA _ _ _ _ => some dA
  | _ => none

/-! Helper lemmas: fields that no member function ever writes are
preserved by every operation, and the allocator pointer only grows. -/

lemma applyOp_preserves (s : CusparseLt) (op : Op) :
    (applyOp s op).1.alignment = s.alignment ∧
    (applyOp s op).1.alpha = s.alpha ∧
    (applyOp s op).1.beta = s.beta ∧
    (applyOp s op).1.handleInitialized = s.handleInitialized ∧
    (applyOp s op).1.sparse_compressed = s.sparse_compressed ∧
    (applyOp s op).1.type = s.type ∧
    (applyOp s op).1.compute_type = s.compute_type ∧
    s.nextPtr ≤ (applyOp s op).1.nextPtr := by
  cases op <;>
    simp [applyOp, CusparseLt.compress, CusparseLt.cusparselt_mm,
      CusparseLt.cusparselt_addmm, CusparseLt.cusparselt_helper]

lemma runOps_preserves : ∀ (ops : List Op) (s : CusparseLt),
    (runOps s ops).1.alignment = s.alignment ∧
    (runOps s ops).1.alpha = s.alpha ∧
    (runOps s ops).1.beta = s.beta ∧
    (runOps s ops).1.handleInitialized = s.handleInitialized ∧
    (runOps s ops).1.sparse_compressed = s.sparse_compressed ∧
    (runOps s ops).1.type = s.type ∧
    (runOps s ops).1.compute_type = s.compute_type ∧
    s.nextPtr ≤ (runOps s ops).1.nextPtr
  | [], s => by simp [runOps]
  | op :: ops, s => by
    have h1 := applyOp_preserves s op
    have h2 := runOps_preserves ops (applyOp s op).1
    simp only [runOps]
    obtain ⟨a1, a2, a3, a4, a5, a6, a7, a8⟩ := h1
    obtain ⟨b1, b2, b3, b4, b5, b6, b7, b8⟩ := h2
    refine ⟨?_, ?_, ?_, ?_, ?_, ?_, ?_, ?_⟩ <;>
      simp_all <;> omega

lemma construct_state_fields (sc : Tensor) (major minor junkNumARows : Int)
    (junkOpA : CusparseOperation) (alloc0 : Nat) :
    (CusparseLt.construct sc major minor junkNumARows junkOpA alloc0).state.alignment = 16 ∧
    (CusparseLt.construct sc major minor junkNumARows junkOpA alloc0).state.alpha = 1 ∧
    (CusparseLt.construct sc major minor junkNumARows junkOpA alloc0).state.beta = 0 ∧
    (CusparseLt.construct sc major minor junkNumARows junkOpA alloc0).state.sparse_compressed = sc ∧
    (CusparseLt.construct sc major minor junkNumARows junkOpA alloc0).state.nextPtr = alloc0 := by
  simp only [CusparseLt.construct]
  split <;> [skip; simp] <;> split <;> [simp; skip] <;> split <;> simp

/-- C2: compress with a sparse input of shape m x k and transpose flag
t initializes the structured descriptor with rows (t ? k : m), cols
(t ? m : k), leading dimension equal to the column count (row-major),
alignment 16 and 50 percent sparsity, and stores num_A_rows as
(t ? k : m); stated for any state reachable from construction. -/
theorem C2_compress_structured_descriptor (sc : Tensor) (major minor junkNumARows : Int)
    (junkOpA : CusparseOperation) (alloc0 : Nat) (ops : List Op)
    (sparse_input : Tensor) (t : Bool) :
    let s := (runOps (CusparseLt.construct sc major minor junkNumARows junkOpA alloc0).state ops).1
    let rows : Int := if t then sparse_input.dim1 else sparse_input.dim0
    let cols : Int := if t then sparse_input.dim0 else sparse_input.dim1
    (CusparseLt.compress s sparse_input t).2.head? =
      some (ApiCall.cusparseLtStructuredDescriptorInit rows cols cols 16 s.type order
        CusparseSparsity.FIFTY_PERCENT) ∧
    (CusparseLt.compress s sparse_input t).1.num_A_rows = rows := by
  intro s rows cols
  have ha : s.alignment = 16 :=
    (runOps_preserves ops _).1.trans (construct_state_fields sc major minor junkNumARows junkOpA alloc0).1
  cases t <;> simp [CusparseLt.compress, order, ha, rows, cols]

/-- C4: on a supported GPU the constructor translates the dtype of the
bound tensor into the vendor type pair: int8 gives CUDA_R_8I with
COMPUTE_32I, bfloat16 gives CUDA_R_B16F with COMPUTE_32I, and any other
dtype keeps the defaults CUDA_R_16F with COMPUTE_16F. -/
theorem C4_dtype_translation (sc : Tensor) (major minor junkNumARows : Int)
    (junkOpA : CusparseOperation) (alloc0 : Nat)
    (h : supportedCC major minor = true) :
    let st := (CusparseLt.construct sc major minor junkNumARows junkOpA alloc0).state
    (sc.dtype = DType.int8 →
      st.type = CudaDataType.CUDA_R_8I ∧
      st.compute_type = CusparseComputeType.COMPUTE_32I) ∧
    (sc.dtype = DType.bfloat16 →
      st.type = CudaDataType.CUDA_R_B16F ∧
      st.compute_type = CusparseComputeType.COMPUTE_32I) ∧
    (sc.dtype ≠ DType.int8 → sc.dtype ≠ DType.bfloat16 →
      st.type = CudaDataType.CUDA_R_16F ∧
      st.compute_type = CusparseComputeType.COMPUTE_16F) := by
  simp only [CusparseLt.construct, h, if_true]
  split_ifs <;> simp_all

/-- C4 witness: a concrete int8 tensor on compute capability 8.0. -/
theorem C4_dtype_translation_witness :
    (CusparseLt.construct
        { dim0 := 32, dim1 := 64, dtype := DType.int8, device := 0,
          contiguous := true, ptr := 1 } 8 0 0 CusparseOperation.NON_TRANSPOSE 10).state.type =
      CudaDataType.CUDA_R_8I ∧
    (CusparseLt.construct
        { dim0 := 32, dim1 := 64, dtype := DType.int8, device := 0,
          contiguous := true, ptr := 1 } 8 0 0 CusparseOperation.NON_TRANSPOSE 10).state.compute_type =
      CusparseComputeType.COMPUTE_32I :=
  (C4_dtype_translation
    { dim0 := 32, dim1 := 64, dtype := DType.int8, device := 0,
      contiguous := true, ptr := 1 } 8 0 0 CusparseOperation.NON_TRANSPOSE 10
    (by decide)).1 rfl

/-- C6: the helper marks the dense operand transposed exactly when the
input is not contiguous, swapping the descriptor row and column counts,
and the leading dimension is the descriptor column count (row-major). -/
theorem C6_dense_layout (s : CusparseLt) (input : Tensor) (dBias : Option Nat)
    (biasStride : Int) (sel : Int) :
    let tr := (CusparseLt.cusparselt_helper s input dBias biasStride sel).2.2
    let opB := if input.contiguous then CusparseOperation.NON_TRANSPOSE
               else CusparseOperation.TRANSPOSE
    let rows : Int := if input.contiguous then input.dim0 else input.dim1
    let cols : Int := if input.contiguous then input.dim1 else input.dim0
    tr.head? = some (ApiCall.cusparseLtDenseDescriptorInit "dense_input_descriptor"
      rows cols cols s.alignment s.type order) ∧
    ApiCall.cusparseLtMatmulDescriptorInit s.opA opB s.compute_type ∈ tr := by
  cases hc : input.contiguous <;>
    simp [CusparseLt.cusparselt_helper, order, hc]

/-- C10: when the compute capability is not 8.0, 8.6 or 8.9 the
constructor prints the message and returns early: only the two
attribute queries are issued, cusparseLtInit is never called, the
dtype translation is skipped (defaults remain), no error is raised,
and the handle stays uninitialized through any later operations. -/
theorem C10_unsupported_cc_early_return (sc : Tensor) (major minor junkNumARows : Int)
    (junkOpA : CusparseOperation) (alloc0 : Nat) (ops : List Op)
    (h : supportedCC major minor = false) :
    let r := CusparseLt.construct sc major minor junkNumARows junkOpA alloc0
    r.printedUnsupported = true ∧
    r.calls = [ApiCall.cudaDeviceGetAttribute "ComputeCapabilityMajor",
               ApiCall.cudaDeviceGetAttribute "ComputeCapabilityMinor"] ∧
    ApiCall.cusparseLtInit ∉ r.calls ∧
    r.state.handleInitialized = false ∧
    r.state.type = CudaDataType.CUDA_R_16F ∧
    r.state.compute_type = CusparseComputeType.COMPUTE_16F ∧
    (runChecked (fun _ => true) r.calls 0).2 = true ∧
    (runOps r.state ops).1.handleInitialized = false := by
  have hinv := (runOps_preserves ops
    (CusparseLt.construct sc major minor junkNumARows junkOpA alloc0).state).2.2.2.1
  simp only [CusparseLt.construct, h] at hinv ⊢
  simp [runChecked] at hinv ⊢
  exact hinv

/-- C10 witness: compute capability 7.5 with a later multiply call. -/
theorem C10_unsupported_cc_early_return_witness :
    (CusparseLt.construct
      { dim0 := 32, dim1 := 64, dtype := DType.float16, device := 0,
        contiguous := true, ptr := 1 } 7 5 0 CusparseOperation.NON_TRANSPOSE 10).printedUnsupported = true ∧
    (CusparseLt.construct
      { dim0 := 32, dim1 := 64, dtype := DType.float16, device := 0,
        contiguous := true, ptr := 1 } 7 5 0 CusparseOperation.NON_TRANSPOSE 10).calls =
      [ApiCall.cudaDeviceGetAttribute "ComputeCapabilityMajor",
       ApiCall.cudaDeviceGetAttribute "ComputeCapabilityMinor"] ∧
    ApiCall.cusparseLtInit ∉ (CusparseLt.construct
      { dim0 := 32, dim1 := 64, dtype := DType.float16, device := 0,
        contiguous := true, ptr := 1 } 7 5 0 CusparseOperation.NON_TRANSPOSE 10).calls ∧
    (CusparseLt.construct
      { dim0 := 32, dim1 := 64, dtype := DType.float16, device := 0,
        contiguous := true, ptr := 1 } 7 5 0 CusparseOperation.NON_TRANSPOSE 10).state.handleInitialized = false ∧
    (CusparseLt.construct
      { dim0 := 32, dim1 := 64, dtype := DType.float16, device := 0,
        contiguous := true, ptr := 1 } 7 5 0 CusparseOperation.NON_TRANSPOSE 10).state.type = CudaDataType.CUDA_R_16F ∧
    (CusparseLt.construct
      { dim0 := 32, dim1 := 64, dtype := DType.float16, device := 0,
        contiguous := true, ptr := 1 } 7 5 0 CusparseOperation.NON_TRANSPOSE 10).state.compute_type = CusparseComputeType.COMPUTE_16F ∧
    (runChecked (fun _ => true) (CusparseLt.construct
      { dim0 := 32, dim1 := 64, dtype := DType.float16, device := 0,
        contiguous := true, ptr := 1 } 7 5 0 CusparseOperation.NON_TRANSPOSE 10).calls 0).2 = true ∧
    (runOps (CusparseLt.construct
      { dim0 := 32, dim1 := 64, dtype := DType.float16, device := 0,
        contiguous := true, ptr := 1 } 7 5 0 CusparseOperation.NON_TRANSPOSE 10).state
      [Op.mmOp { dim0 := 64, dim1 := 8, dtype := DType.float16, device := 0,
                 contiguous := true, ptr := 3 } 0]).1.handleInitialized = false :=
  C10_unsupported_cc_early_return
    { dim0 := 32, dim1 := 64, dtype := DType.float16, device := 0,
      contiguous := true, ptr := 1 } 7 5 0 CusparseOperation.NON_TRANSPOSE 10
    [Op.mmOp { dim0 := 64, dim1 := 8, dtype := DType.float16, device := 0,
               contiguous := true, ptr := 3 } 0]
    (by decide)

/-- C1: the compress entry point writes into the sparse_compressed
tensor bound at construction (pointer 1 below), but the multiply and
search call sites pass weight_compressed.data_ptr(), and the struct
declares no tensor member named weight_compressed, so the identifier
does not resolve (the source cannot even compile) and the operand the
multiply paths pass is not the compressed tensor that compress wrote. -/
theorem C1_weight_compressed_unresolved :
    let sc : Tensor := { dim0 := 32, dim1 := 64, dtype := DType.float16,
                         device := 0, contiguous := true, ptr := 1 }
    let s0 := (CusparseLt.construct sc 8 0 0 CusparseOperation.NON_TRANSPOSE 10).state
    let sp : Tensor := { dim0 := 32, dim1 := 64, dtype := DType.float16,
                         device := 0, contiguous := true, ptr := 2 }
    let c := CusparseLt.compress s0 sp false
    let inp : Tensor := { dim0 := 64, dim1 := 8, dtype := DType.float16,
                          device := 0, contiguous := true, ptr := 3 }
    let m := CusparseLt.cusparselt_mm c.1 inp 0
    ("weight_compressed" ∉ declaredTensorMembers) ∧
    ("sparse_compressed" ∈ declaredTensorMembers) ∧
    sparseOperandArg c.1 = none ∧
    c.1.sparse_compressed.ptr = 1 ∧
    (ApiCall.cusparseLtSpMMACompress2 true CusparseOperation.NON_TRANSPOSE
      (some 2) (some 1) ∈ c.2) ∧
    (ApiCall.cusparseLtMatmulSearch 1 none (some 3) 0 (some 10) (some 10) ∈ m.2.2) ∧
    (∀ c1 ∈ m.2.2, multiplySparseArg c1 ≠ some (some 1)) := by
  decide

/-- C3: both multiply entry points return a tensor allocated by
input.new_empty of shape num_A_rows by n with the dense input dtype and
device, at a device pointer distinct from the input and from the
compressed tensor; stated for any state reachable from construction. -/
theorem C3_result_tensor (sc : Tensor) (major minor junkNumARows : Int)
    (junkOpA : CusparseOperation) (alloc0 : Nat) (ops : List Op)
    (input bias : Tensor) (sel : Int)
    (h1 : sc.ptr < alloc0) (h2 : input.ptr < alloc0) :
    let s := (runOps (CusparseLt.construct sc major minor junkNumARows junkOpA alloc0).state ops).1
    (CusparseLt.cusparselt_mm s input sel).2.1 =
      { dim0 := s.num_A_rows, dim1 := input.dim1, dtype := input.dtype,
        device := input.device, contiguous := true, ptr := s.nextPtr } ∧
    (CusparseLt.cusparselt_addmm s input bias sel).2.1 =
      { dim0 := s.num_A_rows, dim1 := input.dim1, dtype := input.dtype,
        device := input.device, contiguous := true, ptr := s.nextPtr } ∧
    s.nextPtr ≠ input.ptr ∧
    s.nextPtr ≠ s.sparse_compressed.ptr := by
  intro s
  have hpre := runOps_preserves ops
    (CusparseLt.construct sc major minor junkNumARows junkOpA alloc0).state
  have hfields := construct_state_fields sc major minor junkNumARows junkOpA alloc0
  have hsc : s.sparse_compressed = sc := hpre.2.2.2.2.1.trans hfields.2.2.2.1
  have hnp : alloc0 ≤ s.nextPtr := hfields.2.2.2.2 ▸ hpre.2.2.2.2.2.2.2
  refine ⟨rfl, rfl, ?_, ?_⟩
  · omega
  · rw [hsc]; omega

/-- C3 witness: concrete construction, compress and multiply. -/
theorem C3_result_tensor_witness :
    let s := (runOps (CusparseLt.construct
      { dim0 := 32, dim1 := 64, dtype := DType.float16, device := 0,
        contiguous := true, ptr := 1 } 8 0 0 CusparseOperation.NON_TRANSPOSE 10).state
      [Op.compressOp { dim0 := 32, dim1 := 64, dtype := DType.float16, device := 0,
                       contiguous := true, ptr := 2 } false]).1
    (CusparseLt.cusparselt_mm s { dim0 := 64, dim1 := 8, dtype := DType.float16,
                                  device := 0, contiguous := true, ptr := 3 } 0).2.1 =
      { dim0 := s.num_A_rows, dim1 := 8, dtype := DType.float16,
        device := 0, contiguous := true, ptr := s.nextPtr } ∧
    (CusparseLt.cusparselt_addmm s
        { dim0 := 64, dim1 := 8, dtype := DType.float16,
          device := 0, contiguous := true, ptr := 3 }
        { dim0 := 32, dim1 := 1, dtype := DType.float16, device := 0,
          contiguous := true, ptr := 4 } 0).2.1 =
      { dim0 := s.num_A_rows, dim1 := 8, dtype := DType.float16,
        device := 0, contiguous := true, ptr := s.nextPtr } ∧
    s.nextPtr ≠ 3 ∧
    s.nextPtr ≠ s.sparse_compressed.ptr :=
  C3_result_tensor
    { dim0 := 32, dim1 := 64, dtype := DType.float16, device := 0,
      contiguous := true, ptr := 1 } 8 0 0 CusparseOperation.NON_TRANSPOSE 10
    [Op.compressOp
      { dim0 := 32, dim1 := 64, dtype := DType.float16, device := 0,
        contiguous := true, ptr := 2 } false]
    { dim0 := 64, dim1 := 8, dtype := DType.float16, device := 0,
      contiguous := true, ptr := 3 }
    { dim0 := 32, dim1 := 1, dtype := DType.float16, device := 0,
      contiguous := true, ptr := 4 } 0
    (by decide) (by decide)

/-- Helper: no operation ever emits a prune or prune-check call. -/
lemma applyOp_no_prune (s : CusparseLt) (op : Op) :
    (applyOp s op).2.all (fun c => !isPruneCall c) = true := by
  cases op <;>
    simp only [applyOp, CusparseLt.compress, CusparseLt.cusparselt_mm,
      CusparseLt.cusparselt_addmm, CusparseLt.cusparselt_helper] <;>
    split_ifs <;> simp [isPruneCall]

lemma runOps_no_prune : ∀ (ops : List Op) (s : CusparseLt),
    ((runOps s ops).2.all (fun tr => tr.all (fun c => !isPruneCall c))) = true
  | [], _ => by simp [runOps]
  | op :: ops, s => by
    simp only [runOps, List.all_cons, Bool.and_eq_true]
    exact ⟨applyOp_no_prune s op, runOps_no_prune ops (applyOp s op).1⟩

/-- C7: compress hands the sparse input pointer directly to the vendor
compress entry point, and no operation of the binding (constructor,
compress, either multiply path) ever emits the vendor prune or
prune-check calls. -/
theorem C7_no_prune_direct_compress (s : CusparseLt) (sparse_input : Tensor) (t : Bool)
    (sc : Tensor) (major minor junkNumARows : Int) (junkOpA : CusparseOperation)
    (alloc0 : Nat) (ops : List Op) :
    (ApiCall.cusparseLtSpMMACompress2 true
        (if t then CusparseOperation.TRANSPOSE else CusparseOperation.NON_TRANSPOSE)
        (some sparse_input.ptr) (some s.sparse_compressed.ptr) ∈
      (CusparseLt.compress s sparse_input t).2) ∧
    ((CusparseLt.construct sc major minor junkNumARows junkOpA alloc0).calls.all
      (fun c => !isPruneCall c) = true) ∧
    (((runOps (CusparseLt.construct sc major minor junkNumARows junkOpA alloc0).state ops).2.all
      (fun tr => tr.all (fun c => !isPruneCall c))) = true) := by
  refine ⟨?_, ?_, runOps_no_prune ops _⟩
  · simp [CusparseLt.compress]
  · simp only [CusparseLt.construct]
    split_ifs <;> simp [isPruneCall]

/-- Whether a vendor call that is a multiplication or search carries
alpha equal to one and beta equal to zero; true for all other calls. -/
def multiplyScalarsOk (c : ApiCall) : Bool :=
  match multiplyScalars c with
  | some p => p.1 == 1 && p.2 == 0
  | none => true

lemma applyOp_scalars_ok (s : CusparseLt) (op : Op)
    (ha : s.alpha = 1) (hb : s.beta = 0) :
    (applyOp s op).2.all multiplyScalarsOk = true := by
  cases op <;>
    simp only [applyOp, CusparseLt.compress, CusparseLt.cusparselt_mm,
      CusparseLt.cusparselt_addmm, CusparseLt.cusparselt_helper] <;>
    split_ifs <;>
    simp [multiplyScalarsOk, multiplyScalars, ha, hb]

lemma runOps_scalars_ok : ∀ (ops : List Op) (s : CusparseLt),
    s.alpha = 1 → s.beta = 0 →
    ((runOps s ops).2.all (fun tr => tr.all multiplyScalarsOk)) = true
  | [], _, _, _ => by simp [runOps]
  | op :: ops, s, ha, hb => by
    have hp := applyOp_preserves s op
    simp only [runOps, List.all_cons, Bool.and_eq_true]
    exact ⟨applyOp_scalars_ok s op ha hb,
      runOps_scalars_ok ops (applyOp s op).1 (hp.2.1.trans ha) (hp.2.2.1.trans hb)⟩

/-- C8: alpha stays one and beta stays zero through any sequence of
operations after construction, and every multiplication or search call
issued carries exactly those scalars. -/
theorem C8_alpha_one_beta_zero (sc : Tensor) (major minor junkNumARows : Int)
    (junkOpA : CusparseOperation) (alloc0 : Nat) (ops : List Op) :
    let r := runOps (CusparseLt.construct sc major minor junkNumARows junkOpA alloc0).state ops
    r.1.alpha = 1 ∧ r.1.beta = 0 ∧
    (r.2.all (fun tr => tr.all multiplyScalarsOk)) = true := by
  intro r
  have hfields := construct_state_fields sc major minor junkNumARows junkOpA alloc0
  have hpre := runOps_preserves ops
    (CusparseLt.construct sc major minor junkNumARows junkOpA alloc0).state
  exact ⟨hpre.2.1.trans hfields.2.1, hpre.2.2.1.trans hfields.2.2.1,
    runOps_scalars_ok ops _ hfields.2.1 hfields.2.2.1⟩

/-- The config id a vendor search would report during an operation:
none for compress, which runs no search. -/
def selOf : Op → Option Int
  | Op.compressOp _ _ => none
  | Op.mmOp _ sel => some sel
  | Op.addmmOp _ _ sel => some sel

/-- Total number of vendor search calls across a list of traces. -/
def searchCount (trs : List (List ApiCall)) : Nat :=
  (trs.map (fun tr => tr.countP isSearchCall)).sum

lemma applyOp_search_no7777 (s : CusparseLt) (op : Op) (h : ¬s.alg_id = 7777) :
    (applyOp s op).1.alg_id = s.alg_id ∧
    (applyOp s op).2.countP isSearchCall = 0 := by
  cases op <;>
    simp [applyOp, CusparseLt.compress, CusparseLt.cusparselt_mm,
      CusparseLt.cusparselt_addmm, CusparseLt.cusparselt_helper, h,
      isSearchCall, List.countP_cons]

lemma applyOp_search_7777 (s : CusparseLt) (op : Op) (sel : Int)
    (h : s.alg_id = 7777) (hop : selOf op = some sel) :
    (applyOp s op).1.alg_id = sel ∧
    (applyOp s op).2.countP isSearchCall = 1 := by
  cases op <;> simp only [selOf, Option.some.injEq, reduceCtorEq] at hop <;>
    subst hop <;>
    simp [applyOp, CusparseLt.cusparselt_mm, CusparseLt.cusparselt_addmm,
      CusparseLt.cusparselt_helper, h, isSearchCall, List.countP_cons]

lemma applyOp_search_compress (s : CusparseLt) (op : Op) (hop : selOf op = none) :
    (applyOp s op).1.alg_id = s.alg_id ∧
    (applyOp s op).2.countP isSearchCall = 0 := by
  cases op <;> simp only [selOf, reduceCtorEq] at hop <;> try exact hop.elim
  simp [applyOp, CusparseLt.compress, isSearchCall, List.countP_cons]

lemma runOps_search_no7777 : ∀ (ops : List Op) (s : CusparseLt),
    ¬s.alg_id = 7777 →
    searchCount (runOps s ops).2 = 0 ∧ (runOps s ops).1.alg_id = s.alg_id
  | [], _, _ => by simp [runOps, searchCount]
  | op :: ops, s, h => by
    have h1 := applyOp_search_no7777 s op h
    have h2 := runOps_search_no7777 ops (applyOp s op).1 (by rw [h1.1]; exact h)
    simp only [runOps, searchCount, List.map_cons, List.sum_cons] at h2 ⊢
    exact ⟨by omega, h2.2.trans h1.1⟩

lemma runOps_search_le_one : ∀ (ops : List Op) (s : CusparseLt),
    (∀ op ∈ ops, selOf op ≠ some 7777) → s.alg_id = 7777 →
    searchCount (runOps s ops).2 ≤ 1
  | [], _, _, _ => by simp [runOps, searchCount]
  | op :: ops, s, hops, h => by
    simp only [runOps, searchCount, List.map_cons, List.sum_cons]
    cases hsel : selOf op with
    | none =>
        have h1 := applyOp_search_compress s op hsel
        have h2 := runOps_search_le_one ops (applyOp s op).1
          (fun o ho => hops o (List.mem_cons_of_mem op ho)) (h1.1.trans h)
        simp only [searchCount] at h2
        omega
    | some sel =>
        have hne : sel ≠ 7777 := by
          intro hc
          exact hops op (List.mem_cons_self op ops) (hc ▸ hsel)
        have h1 := applyOp_search_7777 s op sel h hsel
        have h2 := runOps_search_no7777 ops (applyOp s op).1 (by rw [h1.1]; exact hne)
        simp only [searchCount] at h2
        omega

/-- C5: alg_id starts at the 7777 sentinel; a multiply call seeing the
sentinel runs the vendor search exactly once, reads the selected config
id and caches it; a multiply call seeing a cached id runs no search,
sets the id on the algorithm selection and calls the matmul entry
point; and across any operation sequence after construction in which no
search reports the sentinel itself, at most one search call is ever
issued. -/
theorem C5_search_at_most_once (sc : Tensor) (major minor junkNumARows : Int)
    (junkOpA : CusparseOperation) (alloc0 : Nat) (ops : List Op)
    (h : ∀ op ∈ ops, selOf op ≠ some 7777) :
    let s0 := (CusparseLt.construct sc major minor junkNumARows junkOpA alloc0).state
    s0.alg_id = 7777 ∧
    searchCount (runOps s0 ops).2 ≤ 1 ∧
    (∀ (s : CusparseLt) (input : Tensor) (dBias : Option Nat) (biasStride sel : Int),
      s.alg_id = 7777 →
        (CusparseLt.cusparselt_helper s input dBias biasStride sel).2.2.countP isSearchCall = 1 ∧
        ApiCall.cusparseLtMatmulAlgGetAttribute "ALG_CONFIG_ID" ∈
          (CusparseLt.cusparselt_helper s input dBias biasStride sel).2.2 ∧
        (CusparseLt.cusparselt_helper s input dBias biasStride sel).1.alg_id = sel) ∧
    (∀ (s : CusparseLt) (input : Tensor) (dBias : Option Nat) (biasStride sel : Int),
      ¬s.alg_id = 7777 →
        (CusparseLt.cusparselt_helper s input dBias biasStride sel).2.2.countP isSearchCall = 0 ∧
        ApiCall.cusparseLtMatmulAlgSetAttribute "ALG_CONFIG_ID" s.alg_id ∈
          (CusparseLt.cusparselt_helper s input dBias biasStride sel).2.2 ∧
        ApiCall.cusparseLtMatmul s.alpha (sparseOperandArg s) (some input.ptr) s.beta
            (some s.nextPtr) (some s.nextPtr) ∈
          (CusparseLt.cusparselt_helper s input dBias biasStride sel).2.2 ∧
        (CusparseLt.cusparselt_helper s input dBias biasStride sel).1.alg_id = s.alg_id) := by
  intro s0
  have halg : s0.alg_id = 7777 := by
    simp only [CusparseLt.construct, s0]
    split_ifs <;> simp
  refine ⟨halg, runOps_search_le_one ops s0 h halg, ?_, ?_⟩
  · intro s input dBias biasStride sel hs
    simp [CusparseLt.cusparselt_helper, hs, isSearchCall, List.countP_cons]
  · intro s input dBias biasStride sel hs
    simp [CusparseLt.cusparselt_helper, hs, isSearchCall, List.countP_cons]

/-- C5 witness: two multiply calls after construction, the first with
reported config id three. -/
theorem C5_search_at_most_once_witness :
    let s0 := (CusparseLt.construct
      { dim0 := 32, dim1 := 64, dtype := DType.float16, device := 0,
        contiguous := true, ptr := 1 } 8 0 0 CusparseOperation.NON_TRANSPOSE 10).state
    s0.alg_id = 7777 ∧
    searchCount (runOps s0
      [Op.mmOp { dim0 := 64, dim1 := 8, dtype := DType.float16, device := 0,
                 contiguous := true, ptr := 3 } 3,
       Op.mmOp { dim0 := 64, dim1 := 8, dtype := DType.float16, device := 0,
                 contiguous := true, ptr := 3 } 3]).2 ≤ 1 ∧
    (∀ (s : CusparseLt) (input : Tensor) (dBias : Option Nat) (biasStride sel : Int),
      s.alg_id = 7777 →
        (CusparseLt.cusparselt_helper s input dBias biasStride sel).2.2.countP isSearchCall = 1 ∧
        ApiCall.cusparseLtMatmulAlgGetAttribute "ALG_CONFIG_ID" ∈
          (CusparseLt.cusparselt_helper s input dBias biasStride sel).2.2 ∧
        (CusparseLt.cusparselt_helper s input dBias biasStride sel).1.alg_id = sel) ∧
    (∀ (s : CusparseLt) (input : Tensor) (dBias : Option Nat) (biasStride sel : Int),
      ¬s.alg_id = 7777 →
        (CusparseLt.cusparselt_helper s input dBias biasStride sel).2.2.countP isSearchCall = 0 ∧
        ApiCall.cusparseLtMatmulAlgSetAttribute "ALG_CONFIG_ID" s.alg_id ∈
          (CusparseLt.cusparselt_helper s input dBias biasStride sel).2.2 ∧
        ApiCall.cusparseLtMatmul s.alpha (sparseOperandArg s) (some input.ptr) s.beta
            (some s.nextPtr) (some s.nextPtr) ∈
          (CusparseLt.cusparselt_helper s input dBias biasStride sel).2.2 ∧
        (CusparseLt.cusparselt_helper s input dBias biasStride sel).1.alg_id = s.alg_id) :=
  C5_search_at_most_once
    { dim0 := 32, dim1 := 64, dtype := DType.float16, device := 0,
      contiguous := true, ptr := 1 } 8 0 0 CusparseOperation.NON_TRANSPOSE 10
    [Op.mmOp { dim0 := 64, dim1 := 8, dtype := DType.float16, device := 0,
               contiguous := true, ptr := 3 } 3,
     Op.mmOp { dim0 := 64, dim1 := 8, dtype := DType.float16, device := 0,
               contiguous := true, ptr := 3 } 3]
    (by decide)

lemma runChecked_ok (oracle : Nat → Bool) : ∀ (cs : List ApiCall) (i : Nat),
    (∀ j, j < cs.length → oracle (i + j) = true) →
    runChecked oracle cs i = (cs, true)
  | [], i, _ => rfl
  | c :: cs, i, h => by
    have h0 : oracle i = true := by
      have := h 0 (Nat.succ_pos _)
      simpa using this
    have hrest := runChecked_ok oracle cs (i + 1)
      (fun j hj => by
        have := h (j + 1) (by simpa using Nat.succ_lt_succ hj)
        simpa [Nat.add_assoc, Nat.add_comm, Nat.add_left_comm] using this)
    simp [runChecked, h0, hrest]

lemma runChecked_fail (oracle : Nat → Bool) : ∀ (cs : List ApiCall) (i n : Nat),
    (∀ j, j < n → oracle (i + j) = true) →
    oracle (i + n) = false →
    n < cs.length →
    runChecked oracle cs i = (cs.take (n + 1), false)
  | [], _, n, _, _, hlen => absurd hlen (by simp)
  | c :: cs, i, 0, _, hfail, _ => by
    simp only [Nat.add_zero] at hfail
    simp [runChecked, hfail]
  | c :: cs, i, n + 1, hok, hfail, hlen => by
    have h0 : oracle i = true := by
      have := hok 0 (Nat.succ_pos _)
      simpa using this
    have hrest := runChecked_fail oracle cs (i + 1) n
      (fun j hj => by
        have := hok (j + 1) (Nat.succ_lt_succ hj)
        simpa [Nat.add_assoc, Nat.add_comm, Nat.add_left_comm] using this)
      (by
        have : i + 1 + n = i + (n + 1) := by omega
        rw [this]; exact hfail)
      (by simpa using Nat.lt_of_succ_lt_succ hlen)
    simp [runChecked, h0, hrest]

/-- C9: every vendor call of the constructor, compress and the
multiply helper goes through the CHECK macros: with all-success
statuses the whole call list of the operation runs, and when the call
at index n is the first to return a non-success status, the operation
stops right after it (TORCH_CHECK raises) and no later vendor call of
that operation is issued. -/
theorem C9_every_call_checked (sc : Tensor) (major minor junkNumARows : Int)
    (junkOpA : CusparseOperation) (alloc0 : Nat) (s : CusparseLt)
    (sparse_input : Tensor) (transposed : Bool) (input : Tensor)
    (dBias : Option Nat) (biasStride sel : Int)
    (oracle : Nat → Bool) (n : Nat) (calls : List ApiCall)
    (hmem : calls ∈ opCallLists sc major minor junkNumARows junkOpA alloc0 s
      sparse_input transposed input dBias biasStride sel)
    (hok : ∀ j, j < n → oracle j = true)
    (hfail : oracle n = false)
    (hlen : n < calls.length) :
    runChecked oracle calls 0 = (calls.take (n + 1), false) ∧
    (∀ oracle1 : Nat → Bool, (∀ j, j < calls.length → oracle1 j = true) →
      runChecked oracle1 calls 0 = (calls, true)) := by
  refine ⟨?_, ?_⟩
  · have := runChecked_fail oracle calls 0 n (fun j hj => by simpa using hok j hj)
      (by simpa using hfail) hlen
    exact this
  · intro oracle1 h1
    exact runChecked_ok oracle1 calls 0 (fun j hj => by simpa using h1 j hj)

/-- C9 witness: the compress call list of a concrete state, failing at
its third call. -/
theorem C9_every_call_checked_witness :
    runChecked (fun j => decide (j < 2))
      (CusparseLt.compress
        ((CusparseLt.construct
          { dim0 := 32, dim1 := 64, dtype := DType.float16, device := 0,
            contiguous := true, ptr := 1 } 8 0 0 CusparseOperation.NON_TRANSPOSE 10).state)
        { dim0 := 32, dim1 := 64, dtype := DType.float16, device := 0,
          contiguous := true, ptr := 2 } false).2 0 =
      ((CusparseLt.compress
        ((CusparseLt.construct
          { dim0 := 32, dim1 := 64, dtype := DType.float16, device := 0,
            contiguous := true, ptr := 1 } 8 0 0 CusparseOperation.NON_TRANSPOSE 10).state)
        { dim0 := 32, dim1 := 64, dtype := DType.float16, device := 0,
          contiguous := true, ptr := 2 } false).2.take 3, false) ∧
    (∀ oracle1 : Nat → Bool,
      (∀ j, j < (CusparseLt.compress
        ((CusparseLt.construct
          { dim0 := 32, dim1 := 64, dtype := DType.float16, device := 0,
            contiguous := true, ptr := 1 } 8 0 0 CusparseOperation.NON_TRANSPOSE 10).state)
        { dim0 := 32, dim1 := 64, dtype := DType.float16, device := 0,
          contiguous := true, ptr := 2 } false).2.length → oracle1 j = true) →
      runChecked oracle1
        (CusparseLt.compress
          ((CusparseLt.construct
            { dim0 := 32, dim1 := 64, dtype := DType.float16, device := 0,
              contiguous := true, ptr := 1 } 8 0 0 CusparseOperation.NON_TRANSPOSE 10).state)
          { dim0 := 32, dim1 := 64, dtype := DType.float16, device := 0,
            contiguous := true, ptr := 2 } false).2 0 =
        ((CusparseLt.compress
          ((CusparseLt.construct
            { dim0 := 32, dim1 := 64, dtype := DType.float16, device := 0,
              contiguous := true, ptr := 1 } 8 0 0 CusparseOperation.NON_TRANSPOSE 10).state)
          { dim0 := 32, dim1 := 64, dtype := DType.float16, device := 0,
            contiguous := true, ptr := 2 } false).2, true)) :=
  C9_every_call_checked
    { dim0 := 32, dim1 := 64, dtype := DType.float16, device := 0,
      contiguous := true, ptr := 1 } 8 0 0 CusparseOperation.NON_TRANSPOSE 10
    ((CusparseLt.construct
      { dim0 := 32, dim1 := 64, dtype := DType.float16, device := 0,
        contiguous := true, ptr := 1 } 8 0 0 CusparseOperation.NON_TRANSPOSE 10).state)
    { dim0 := 32, dim1 := 64, dtype := DType.float16, device := 0,
      contiguous := true, ptr := 2 } false
    { dim0 := 64, dim1 := 8, dtype := DType.float16, device := 0,
      contiguous := true, ptr := 3 } none 0 0
    (fun j => decide (j < 2)) 2 _
    (by decide) (by decide) (by decide) (by decide)

end CusparseLtKernels
